import Mathlib

/-!
Shallow embedding of the InvoiceGuard invoice-validation pipeline
(`src/matcher.py`, `src/fx_rate_service.py`, `src/extract_invoice.py`,
`src/validator.py`).

Monetary amounts and exchange rates are modelled as rationals; a value of
`none` stands for a Python `None` / failed `float(...)` coercion.  External
effects (directory listings, the Gemini extraction calls, the remote FX API)
are passed in as explicit parameters, and the mutable `api_cache` dictionary
of `get_rate` is threaded as explicit state together with the list of remote
calls actually performed.
-/

unseal Rat.sub Rat.add Rat.mul Rat.inv Rat.ofScientific

/-- One invoice line item, as extracted from an invoice
(`extract_invoice.py`, expected columns) plus the `invoice_file` tag added by
`process_invoices` and the `converted_non_vat_value` column added by
`apply_fx_rates`.  `none` models a missing / non-numeric / non-string cell. -/
structure LineItem where
  item_description : Option String := none
  quantity : Option ℚ := none
  unit_price : Option ℚ := none
  total_non_vat_value : Option ℚ := none
  vat_amount : Option ℚ := none
  currency : Option String := none
  invoice_file : String := ""
  converted_non_vat_value : Option ℚ := none
deriving DecidableEq, Repr

/-- One verification row produced by `match_and_verify` in `src/matcher.py`. -/
structure VerificationRecord where
  item_description : Option String
  invoice_non_vat_value : Option ℚ
  supporting_attached : Bool
  supporting_file : String
  extracted_non_vat_value : Option ℚ
  difference : Option ℚ
  non_vat_match : Bool
  invoice_file : String
deriving DecidableEq, Repr

/-- Whitespace characters removed by Python's `str.strip()` (ASCII part). -/
def isSpaceChar (c : Char) : Bool :=
  c = ' ' || c = '\t' || c = '\n' || c = '\r'

/-- Python `str.strip()` on the character list. -/
def stripChars (l : List Char) : List Char :=
  ((l.dropWhile isSpaceChar).reverse.dropWhile isSpaceChar).reverse

/-- Python `str.lower()` (ASCII model). -/
def lowerStr (s : String) : String :=
  String.mk (s.data.map Char.toLower)

/-- Python `str.upper()` (ASCII model). -/
def upperStr (s : String) : String :=
  String.mk (s.data.map Char.toUpper)

/-- `_normalize_for_match` in `src/matcher.py`: non-strings become `""`;
strings are stripped, lowercased, and spaces become underscores
(`text.strip().lower().replace(" ", "_")`). -/
def normalize_for_match (text : Option String) : String :=
  match text with
  | none => ""
  | some s =>
    String.mk (((stripChars s.data).map Char.toLower).map
      (fun c => if c = ' ' then '_' else c))

/-- Is `pat` a prefix of `s` (on character lists)? -/
def prefixAt : List Char → List Char → Bool
  | [], _ => true
  | _ :: _, [] => false
  | p :: ps, c :: cs => p = c && prefixAt ps cs

/-- Does `pat` occur in `s`?  (Python's `pat in s` substring test.) -/
def occursIn (pat : List Char) : List Char → Bool
  | [] => prefixAt pat []
  | c :: cs => prefixAt pat (c :: cs) || occursIn pat cs

/-- Python's `pat in s` substring test on strings. -/
def strContains (s pat : String) : Bool :=
  occursIn pat.data s.data

/-- The supporting-document search loop of `match_and_verify`
(`src/matcher.py` lines 66-80): only runs when the folder is a directory
(`some docs`) and the normalized key is non-empty; returns the first
directory entry whose lowercased name contains the key. -/
def doc_search (docsFolder : Option (List String)) (target_key : String) :
    Option String :=
  match docsFolder with
  | none => none
  | some docs =>
    if target_key = "" then none
    else docs.find? (fun doc => strContains (lowerStr doc) target_key)

/-- The per-row body of `match_and_verify` (`src/matcher.py` lines 46-94).
`extractSupport` models `extract_value_from_support_doc` (which never raises
and returns a float or `None`). -/
def verifyRow (tolerance : ℚ) (docsFolder : Option (List String))
    (extractSupport : String → Option ℚ) (row : LineItem) :
    VerificationRecord :=
  let target_key := normalize_for_match row.item_description
  match doc_search docsFolder target_key with
  | some doc =>
    let extracted_value := extractSupport doc
    match extracted_value, row.total_non_vat_value with
    | some e, some v =>
      { item_description := row.item_description
        invoice_non_vat_value := some v
        supporting_attached := true
        supporting_file := doc
        extracted_non_vat_value := some e
        difference := some (e - v)
        non_vat_match := decide (|e - v| ≤ tolerance)
        invoice_file := row.invoice_file }
    | _, _ =>
      { item_description := row.item_description
        invoice_non_vat_value := row.total_non_vat_value
        supporting_attached := true
        supporting_file := doc
        extracted_non_vat_value := extracted_value
        difference := none
        non_vat_match := false
        invoice_file := row.invoice_file }
  | none =>
      { item_description := row.item_description
        invoice_non_vat_value := row.total_non_vat_value
        supporting_attached := false
        supporting_file := ""
        extracted_non_vat_value := none
        difference := none
        non_vat_match := false
        invoice_file := row.invoice_file }

/-- `match_and_verify` (`src/matcher.py`): one `VerificationRecord` per input
row, in iteration order. -/
def match_and_verify (tolerance : ℚ) (docsFolder : Option (List String))
    (extractSupport : String → Option ℚ) (df_invoice : List LineItem) :
    List VerificationRecord :=
  df_invoice.map (verifyRow tolerance docsFolder extractSupport)

/-- First-match association-list lookup, modelling Python `dict` reads
(`d.get(k)` / `k in d`); insertions are modelled by prepending, so the most
recent binding for a key wins. -/
def alookup {α β : Type} [DecidableEq α] : α → List (α × β) → Option β
  | _, [] => none
  | k, p :: tl => if p.1 = k then some p.2 else alookup k tl

/-- The per-run remote cache of `get_rate`: base currency → (currency → rate),
modelling the `api_cache` dict. -/
abbrev Cache := List (String × List (String × ℚ))

/-- Outcome of one remote FX request for a base currency
(`requests.get` in `get_rate`, `src/fx_rate_service.py` lines 79-99):
`exn` models a raised exception (network error / timeout / bad JSON body),
`httpFail` a response with `resp.ok` false, and `ok rates` a 2xx response
whose body yields the given `rates` mapping (possibly empty). -/
inductive RemoteOutcome where
  | exn
  | httpFail
  | ok (rates : List (String × ℚ))
deriving DecidableEq, Repr

/-- Result of one `get_rate` call: the returned rate, the caller-visible
state of the `api_cache` dictionary after the call, and the list of remote
requests performed during the call (by base currency). -/
structure RateResult where
  rate : ℚ
  cache : Cache
  calls : List String
deriving DecidableEq, Repr

/-- `get_rate` in `src/fx_rate_service.py` (lines 50-99).

The Python line `api_cache = api_cache or {}` rebinds the parameter to a
fresh dictionary whenever the caller passes a falsy (empty or `None`) cache;
mutations then hit only the fresh dictionary, so the caller-visible cache is
returned unchanged in that case (`fresh` below).  A raised exception from the
remote request is caught and yields `1.0` without caching anything; a non-2xx
response caches an empty map for the base currency. -/
def get_rate (api : String → RemoteOutcome)
    (from_currency to_currency : String)
    (rates_dict : List ((String × String) × ℚ)) (api_cache : Cache) :
    RateResult :=
  if from_currency = "" ∨ to_currency = "" then
    { rate := 1, cache := api_cache, calls := [] }
  else
    let fc := upperStr from_currency
    let tc := upperStr to_currency
    match alookup (fc, tc) rates_dict with
    | some r => { rate := r, cache := api_cache, calls := [] }
    | none =>
      let fresh := api_cache.isEmpty
      match alookup fc api_cache with
      | some rates_map =>
        match alookup tc rates_map with
        | some r => { rate := r, cache := api_cache, calls := [] }
        | none => { rate := 1, cache := api_cache, calls := [] }
      | none =>
        match api fc with
        | .exn => { rate := 1, cache := api_cache, calls := [fc] }
        | .httpFail =>
          let newCache := (fc, ([] : List (String × ℚ))) :: api_cache
          { rate := 1, cache := if fresh then api_cache else newCache,
            calls := [fc] }
        | .ok rates =>
          let newCache := (fc, rates) :: api_cache
          match alookup tc rates with
          | some r =>
            { rate := r, cache := if fresh then api_cache else newCache,
              calls := [fc] }
          | none =>
            { rate := 1, cache := if fresh then api_cache else newCache,
              calls := [fc] }

/-- The row closure `_convert_row` of `apply_fx_rates`
(`src/fx_rate_service.py` lines 127-143), instrumented with the cache state
and the remote calls made.  `none` amount models `_safe_float` failing;
a falsy currency (missing or `""`) passes the raw amount through. -/
def convert_row (api : String → RemoteOutcome) (base_currency : String)
    (rates_dict : List ((String × String) × ℚ)) (row : LineItem)
    (api_cache : Cache) : Option ℚ × Cache × List String :=
  match row.total_non_vat_value with
  | none => (none, api_cache, [])
  | some amount =>
    match row.currency with
    | none => (some amount, api_cache, [])
    | some c =>
      if c = "" then (some amount, api_cache, [])
      else if upperStr c = upperStr base_currency then
        (some amount, api_cache, [])
      else
        let r := get_rate api c base_currency rates_dict api_cache
        (some (amount * r.rate), r.cache, r.calls)

/-- The row loop of `apply_fx_rates`, threading the shared `api_cache`
dictionary through the rows in order and collecting all remote calls. -/
def apply_fx_rates_rows (api : String → RemoteOutcome)
    (base_currency : String)
    (rates_dict : List ((String × String) × ℚ)) :
    List LineItem → Cache → List LineItem × Cache × List String
  | [], api_cache => ([], api_cache, [])
  | row :: rest, api_cache =>
    let c := convert_row api base_currency rates_dict row api_cache
    let r := apply_fx_rates_rows api base_currency rates_dict rest c.2.1
    ({ row with converted_non_vat_value := c.1 } :: r.1, r.2.1,
      c.2.2 ++ r.2.2)

/-- `apply_fx_rates` in `src/fx_rate_service.py` (lines 111-152): loads the
local rate table (here a parameter), creates one fresh empty `api_cache` for
the whole invocation, and converts every row. -/
def apply_fx_rates (api : String → RemoteOutcome) (base_currency : String)
    (rates_dict : List ((String × String) × ℚ)) (df_invoice : List LineItem) :
    List LineItem × Cache × List String :=
  apply_fx_rates_rows api base_currency rates_dict df_invoice []

/-- A Python exception flowing through `extract_line_items`
(`src/extract_invoice.py`): the re-raised `json.JSONDecodeError`, or any
other exception (unreadable file, PDF with no pages, model call failure). -/
inductive PyException where
  | jsonDecodeError
  | otherError
deriving DecidableEq, Repr

/-- The JSON value produced when `json.loads` succeeds on the cleaned
response text: either a list of line-item records or some non-list value. -/
inductive ParsedJson where
  | listOf (items : List LineItem)
  | nonList
deriving DecidableEq, Repr

/-- The externally observable outcome of processing one invoice file:
opening/rasterizing the file raises, the model response has no text, the
response text fails `json.loads`, or it parses to a JSON value. -/
inductive GeminiOutcome where
  | fileError
  | noText
  | badJson
  | parsed (v : ParsedJson)
deriving DecidableEq, Repr

/-- The body of `extract_line_items` inside the outer `try`
(`src/extract_invoice.py` lines 70-156): an empty response returns an empty
frame; a `json.JSONDecodeError` from parsing is logged and re-raised
(`raise je`, lines 128-133); a parsed non-empty list becomes the rows; a
parsed empty list or non-list value returns an empty frame; file errors
propagate as exceptions. -/
def extract_line_items_body : GeminiOutcome → Except PyException (List LineItem)
  | .fileError => .error .otherError
  | .noText => .ok []
  | .badJson => .error .jsonDecodeError
  | .parsed (.listOf items) => .ok items
  | .parsed .nonList => .ok []

/-- `extract_line_items` (`src/extract_invoice.py` lines 57-160): the whole
body is wrapped in `try: ... except Exception: return pd.DataFrame()`
(lines 158-160), so every exception raised inside the body — including the
re-raised `json.JSONDecodeError` — is caught and converted to an empty
frame.  The adapter itself therefore never raises to its caller. -/
def extract_line_items (o : GeminiOutcome) : Except PyException (List LineItem) :=
  match extract_line_items_body o with
  | .ok l => .ok l
  | .error _ => .ok []

/-- `process_invoices` (`src/extract_invoice.py` lines 166-205): for each
invoice file (given here with its per-file extraction outcome), tag every
extracted row with the file name and concatenate; files contributing no rows
are skipped (which is absorbed by concatenation). -/
def process_invoices (perFile : List (String × GeminiOutcome)) : List LineItem :=
  (perFile.map (fun p =>
    let items : List LineItem :=
      match extract_line_items p.2 with
      | .ok items => items
      | .error _ => []
    items.map (fun it => { it with invoice_file := p.1 }))).flatten

/-- `run_validation` in `src/validator.py` (lines 9-56): abort with two empty
tables if the invoices folder does not exist; extract; abort with two empty
tables if no line items were extracted; otherwise verify then convert and
return `(df_invoice_fx, df_verification)`.  A missing supporting-docs folder
(`docsFolder = none`) only logs a warning. -/
def run_validation (invoicesFolderExists : Bool)
    (perFile : List (String × GeminiOutcome))
    (docsFolder : Option (List String))
    (extractSupport : String → Option ℚ) (tolerance : ℚ)
    (api : String → RemoteOutcome) (base_currency : String)
    (rates_dict : List ((String × String) × ℚ)) :
    List LineItem × List VerificationRecord :=
  if !invoicesFolderExists then ([], [])
  else
    let df_invoice := process_invoices perFile
    if df_invoice.isEmpty then ([], [])
    else
      let df_verification :=
        match_and_verify tolerance docsFolder extractSupport df_invoice
      let df_invoice_fx :=
        (apply_fx_rates api base_currency rates_dict df_invoice).1
      (df_invoice_fx, df_verification)

/-- Every branch of `verifyRow` copies the raw `item_description` of the
input row into the record. -/
theorem verifyRow_item_description (tolerance : ℚ)
    (docsFolder : Option (List String)) (extractSupport : String → Option ℚ)
    (row : LineItem) :
    (verifyRow tolerance docsFolder extractSupport row).item_description
      = row.item_description := by
  simp only [verifyRow]
  rcases hds : doc_search docsFolder (normalize_for_match row.item_description) with _ | doc <;>
    simp only [hds]
  all_goals
    rcases hext : extractSupport doc with _ | e <;>
      rcases htot : row.total_non_vat_value with _ | v <;>
      simp only [hext, htot]

/-- C1: for every line item whose invoice pre-tax value and extracted
supporting-document value are both known, the match verdict is true iff
`|extracted − invoice| ≤ tolerance`; in particular the boundary case
`|difference| = tolerance` yields a true verdict (inclusive comparison). -/
theorem C1_match_verdict_iff_within_tolerance (tolerance : ℚ)
    (docsFolder : Option (List String)) (extractSupport : String → Option ℚ)
    (row : LineItem) (v e : ℚ)
    (hv : (verifyRow tolerance docsFolder extractSupport row).invoice_non_vat_value = some v)
    (he : (verifyRow tolerance docsFolder extractSupport row).extracted_non_vat_value = some e) :
    ((verifyRow tolerance docsFolder extractSupport row).non_vat_match = true
       ↔ |e - v| ≤ tolerance)
    ∧ (|e - v| = tolerance →
        (verifyRow tolerance docsFolder extractSupport row).non_vat_match = true) := by
  simp only [verifyRow] at hv he ⊢
  rcases hds : doc_search docsFolder (normalize_for_match row.item_description) with _ | doc <;>
    simp only [hds] at hv he ⊢
  · simp at he
  · rcases hext : extractSupport doc with _ | e0 <;>
      rcases htot : row.total_non_vat_value with _ | v0 <;>
      simp only [hext, htot] at hv he ⊢
    · simp at he
    · simp at he
    · simp at hv
    · obtain rfl : v0 = v := by simpa using hv
      obtain rfl : e0 = e := by simpa using he
      refine ⟨by simp, fun h => by simp [h]⟩

/-- Concrete instantiation of C1 (spec scenario 3): tolerance 10, doc
`laptop_invoice_support.png`, extracted 905, invoice 900. -/
theorem C1_witness :
    ((verifyRow 10 (some ["laptop_invoice_support.png"]) (fun _ => some 905)
        { item_description := some "Laptop", total_non_vat_value := some 900,
          currency := some "USD", invoice_file := "inv1.pdf" }).non_vat_match = true
      ↔ |(905 : ℚ) - 900| ≤ 10)
    ∧ (|(905 : ℚ) - 900| = 10 →
        (verifyRow 10 (some ["laptop_invoice_support.png"]) (fun _ => some 905)
          { item_description := some "Laptop", total_non_vat_value := some 900,
            currency := some "USD", invoice_file := "inv1.pdf" }).non_vat_match = true) :=
  C1_match_verdict_iff_within_tolerance 10 (some ["laptop_invoice_support.png"])
    (fun _ => some 905)
    { item_description := some "Laptop", total_non_vat_value := some 900,
      currency := some "USD", invoice_file := "inv1.pdf" }
    900 905 (by decide) (by decide)

/-- If the supporting-document search finds nothing, the record is unmatched:
`supporting_attached = false` and verdict `false`, regardless of values. -/
theorem verifyRow_no_doc (tolerance : ℚ) (docsFolder : Option (List String))
    (extractSupport : String → Option ℚ) (row : LineItem)
    (h : doc_search docsFolder (normalize_for_match row.item_description) = none) :
    (verifyRow tolerance docsFolder extractSupport row).supporting_attached = false
    ∧ (verifyRow tolerance docsFolder extractSupport row).non_vat_match = false := by
  simp [verifyRow, h]

/-- A true verdict can only arise with both values known, the recorded
difference equal to `extracted − invoice`, and `|difference| ≤ tolerance`. -/
theorem verifyRow_match_true (tolerance : ℚ) (docsFolder : Option (List String))
    (extractSupport : String → Option ℚ) (row : LineItem)
    (h : (verifyRow tolerance docsFolder extractSupport row).non_vat_match = true) :
    ∃ v e, (verifyRow tolerance docsFolder extractSupport row).invoice_non_vat_value = some v
      ∧ (verifyRow tolerance docsFolder extractSupport row).extracted_non_vat_value = some e
      ∧ (verifyRow tolerance docsFolder extractSupport row).difference = some (e - v)
      ∧ |e - v| ≤ tolerance := by
  simp only [verifyRow] at h ⊢
  rcases hds : doc_search docsFolder (normalize_for_match row.item_description) with _ | doc <;>
    simp only [hds] at h ⊢
  · simp at h
  · rcases hext : extractSupport doc with _ | e <;>
      rcases htot : row.total_non_vat_value with _ | v <;>
      simp only [hext, htot] at h ⊢
    · simp at h
    · simp at h
    · simp at h
    · exact ⟨v, e, rfl, rfl, rfl, by simpa using h⟩

/-- The search finds nothing when the normalized key is empty. -/
theorem doc_search_empty_key (docsFolder : Option (List String)) :
    doc_search docsFolder "" = none := by
  rcases docsFolder with _ | docs
  · rfl
  · simp [doc_search]

/-- C2: every record of the matching engine satisfies the invariant: a true
verdict requires both values known with `|difference| ≤ tolerance`; and any
row for which no supporting document is found — in particular when the
supporting-documents folder is missing or the description normalizes to the
empty string — has `supporting_attached = false` and verdict `false`,
regardless of the values. -/
theorem C2_verification_record_invariant (tolerance : ℚ)
    (docsFolder : Option (List String)) (extractSupport : String → Option ℚ)
    (rows : List LineItem) :
    (∀ r ∈ match_and_verify tolerance docsFolder extractSupport rows,
       r.non_vat_match = true →
         ∃ v e, r.invoice_non_vat_value = some v
           ∧ r.extracted_non_vat_value = some e
           ∧ r.difference = some (e - v) ∧ |e - v| ≤ tolerance)
    ∧ (∀ row : LineItem,
         doc_search docsFolder (normalize_for_match row.item_description) = none →
           (verifyRow tolerance docsFolder extractSupport row).supporting_attached = false
           ∧ (verifyRow tolerance docsFolder extractSupport row).non_vat_match = false)
    ∧ (∀ row : LineItem, docsFolder = none →
           (verifyRow tolerance docsFolder extractSupport row).supporting_attached = false
           ∧ (verifyRow tolerance docsFolder extractSupport row).non_vat_match = false)
    ∧ (∀ row : LineItem, normalize_for_match row.item_description = "" →
           (verifyRow tolerance docsFolder extractSupport row).supporting_attached = false
           ∧ (verifyRow tolerance docsFolder extractSupport row).non_vat_match = false) := by
  refine ⟨?_, ?_, ?_, ?_⟩
  · intro r hr hm
    rcases List.mem_map.1 hr with ⟨row, _, rfl⟩
    exact verifyRow_match_true tolerance docsFolder extractSupport row hm
  · intro row h
    exact verifyRow_no_doc tolerance docsFolder extractSupport row h
  · intro row h
    subst h
    exact verifyRow_no_doc tolerance none extractSupport row rfl
  · intro row h
    refine verifyRow_no_doc tolerance docsFolder extractSupport row ?_
    rw [h]
    exact doc_search_empty_key docsFolder

/-- Concrete instantiation of C2: the record of the matched laptop row has a
true verdict, so both values are known and within tolerance. -/
theorem C2_witness :
    ∃ v e,
      (verifyRow 10 (some ["laptop_invoice_support.png"]) (fun _ => some 905)
        { item_description := some "Laptop", total_non_vat_value := some 900,
          currency := some "USD", invoice_file := "inv1.pdf" }).invoice_non_vat_value = some v
      ∧ (verifyRow 10 (some ["laptop_invoice_support.png"]) (fun _ => some 905)
        { item_description := some "Laptop", total_non_vat_value := some 900,
          currency := some "USD", invoice_file := "inv1.pdf" }).extracted_non_vat_value = some e
      ∧ (verifyRow 10 (some ["laptop_invoice_support.png"]) (fun _ => some 905)
        { item_description := some "Laptop", total_non_vat_value := some 900,
          currency := some "USD", invoice_file := "inv1.pdf" }).difference = some (e - v)
      ∧ |e - v| ≤ 10 :=
  (C2_verification_record_invariant 10 (some ["laptop_invoice_support.png"])
      (fun _ => some 905)
      [{ item_description := some "Laptop", total_non_vat_value := some 900,
         currency := some "USD", invoice_file := "inv1.pdf" }]).1
    (verifyRow 10 (some ["laptop_invoice_support.png"]) (fun _ => some 905)
      { item_description := some "Laptop", total_non_vat_value := some 900,
        currency := some "USD", invoice_file := "inv1.pdf" })
    (by decide) (by decide)

/-- C3: the matching engine emits exactly one record per input line item, in
input order, and the i-th record carries the i-th input's description. -/
theorem C3_one_record_per_item_in_order (tolerance : ℚ)
    (docsFolder : Option (List String)) (extractSupport : String → Option ℚ)
    (rows : List LineItem) :
    (match_and_verify tolerance docsFolder extractSupport rows).length = rows.length
    ∧ ∀ i : ℕ,
        ((match_and_verify tolerance docsFolder extractSupport rows).get? i).map
            VerificationRecord.item_description
          = (rows.get? i).map LineItem.item_description := by
  constructor
  · simp [match_and_verify]
  · intro i
    simp only [match_and_verify, List.get?_map]
    cases h : rows.get? i with
    | none => rfl
    | some row => simp [verifyRow_item_description]

/-- C4 counterexample: on a syntactically invalid JSON response the adapter
returns an empty sequence to its caller — it does not propagate any
exception — so the claimed re-raise-to-caller is false at this input. -/
theorem C4_counterexample :
    extract_line_items GeminiOutcome.badJson = Except.ok ([] : List LineItem)
    ∧ extract_line_items GeminiOutcome.badJson
        ≠ Except.error PyException.jsonDecodeError
    ∧ extract_line_items GeminiOutcome.badJson
        ≠ Except.error PyException.otherError := by
  refine ⟨rfl, ?_, ?_⟩ <;> simp [extract_line_items, extract_line_items_body]

/-- C4 (amended): the parse failure is re-raised only out of the inner
per-parse handler (`extract_line_items_body` errors), but the outer per-file
`except Exception` catches it, so the adapter converts every failure mode —
unreadable file, empty response, syntactically invalid JSON, and non-list
payload — to an empty sequence and never raises to its caller; a parsed
non-empty list is returned as the rows. -/
theorem C4_invalid_json_caught_by_outer_handler :
    extract_line_items_body GeminiOutcome.badJson
        = Except.error PyException.jsonDecodeError
    ∧ (∀ o : GeminiOutcome, ∃ l : List LineItem,
        extract_line_items o = Except.ok l)
    ∧ extract_line_items GeminiOutcome.badJson = Except.ok []
    ∧ extract_line_items GeminiOutcome.fileError = Except.ok []
    ∧ extract_line_items GeminiOutcome.noText = Except.ok []
    ∧ extract_line_items (GeminiOutcome.parsed ParsedJson.nonList) = Except.ok []
    ∧ ∀ items : List LineItem,
        extract_line_items (GeminiOutcome.parsed (ParsedJson.listOf items))
          = Except.ok items := by
  refine ⟨rfl, ?_, rfl, rfl, rfl, rfl, fun items => rfl⟩
  intro o
  rcases o with _ | _ | _ | v
  · exact ⟨[], rfl⟩
  · exact ⟨[], rfl⟩
  · exact ⟨[], rfl⟩
  · rcases v with items | _
    · exact ⟨items, rfl⟩
    · exact ⟨[], rfl⟩

/-- C5: evaluation of the Conversion Stage at its failing input.  Two rows
with the same source currency `EUR` (base `USD`, empty local table, remote
answering `EUR`) trigger two remote calls — one per row — and the shared
cache is still empty afterwards (`EUR` never becomes a key), because
`api_cache = api_cache or {}` in `get_rate` rebinds the empty caller
dictionary to a fresh one before any insertion. -/
theorem C5_second_row_repeats_remote_call :
    (apply_fx_rates
        (fun c => if c = "EUR" then RemoteOutcome.ok [("USD", 11/10)]
                  else RemoteOutcome.httpFail)
        "USD" []
        [{ item_description := some "A", total_non_vat_value := some 100,
           currency := some "EUR" },
         { item_description := some "B", total_non_vat_value := some 200,
           currency := some "EUR" }]).2.2 = ["EUR", "EUR"]
    ∧ (apply_fx_rates
        (fun c => if c = "EUR" then RemoteOutcome.ok [("USD", 11/10)]
                  else RemoteOutcome.httpFail)
        "USD" []
        [{ item_description := some "A", total_non_vat_value := some 100,
           currency := some "EUR" },
         { item_description := some "B", total_non_vat_value := some 200,
           currency := some "EUR" }]).2.1 = [] := by
  refine ⟨?_, ?_⟩ <;> decide

/-- A successful association-list lookup yields a stored pair. -/
theorem alookup_mem {α β : Type} [DecidableEq α] {k : α} {v : β} :
    ∀ {l : List (α × β)}, alookup k l = some v → (k, v) ∈ l := by
  intro l
  induction l with
  | nil => intro h; cases h
  | cons p tl ih =>
    intro h
    rcases p with ⟨a, b⟩
    by_cases hp : a = k
    · subst hp
      simp [alookup] at h
      subst h
      exact List.mem_cons_self _ _
    · simp [alookup, hp] at h
      exact List.mem_cons_of_mem _ (ih h)

/-- C6 counterexample: with a local table holding a negative rate for
`(EUR, USD)`, `get_rate` returns that value, which is not positive — so the
claim is false when quantified over every local table. -/
theorem C6_counterexample :
    ¬ (0 < (get_rate (fun _ => RemoteOutcome.httpFail) "EUR" "USD"
        [(("EUR", "USD"), -2)] []).rate) := by decide

/-- C6 (amended): `get_rate` (a total function: every Python exception along
the remote path is caught inside it) returns a positive rational on every
resolution path, provided every rate stored in the local table, every rate
in the remote cache, and every rate in a successful remote response is
positive; the code itself never checks positivity, so without those
assumptions the stored value is returned as-is. -/
theorem C6_rate_positive_for_positive_tables (api : String → RemoteOutcome)
    (from_currency to_currency : String)
    (rates_dict : List ((String × String) × ℚ)) (api_cache : Cache)
    (hrd : ∀ p ∈ rates_dict, 0 < p.2)
    (hcache : ∀ p ∈ api_cache, ∀ q ∈ p.2, 0 < q.2)
    (hapi : ∀ c rates, api c = RemoteOutcome.ok rates → ∀ q ∈ rates, 0 < q.2) :
    0 < (get_rate api from_currency to_currency rates_dict api_cache).rate := by
  simp only [get_rate]
  split
  · exact one_pos
  · rcases h1 : alookup (upperStr from_currency, upperStr to_currency) rates_dict with _ | r
    · simp only [h1]
      rcases h2 : alookup (upperStr from_currency) api_cache with _ | rates_map
      · simp only [h2]
        rcases h3 : api (upperStr from_currency) with _ | _ | rates
        · simp only [h3]; exact one_pos
        · simp only [h3]; exact one_pos
        · simp only [h3]
          rcases h4 : alookup (upperStr to_currency) rates with _ | r
          · simp only [h4]; exact one_pos
          · simp only [h4]
            exact hapi _ _ h3 _ (alookup_mem h4)
      · simp only [h2]
        rcases h3 : alookup (upperStr to_currency) rates_map with _ | r
        · simp only [h3]; exact one_pos
        · simp only [h3]
          exact hcache _ (alookup_mem h2) _ (alookup_mem h3)
    · simp only [h1]
      exact hrd _ (alookup_mem h1)

/-- Concrete instantiation of C6 (amended): positive local table, empty
cache, remote always failing — the returned rate is positive. -/
theorem C6_witness :
    0 < (get_rate (fun _ => RemoteOutcome.httpFail) "EUR" "USD"
        [(("EUR", "USD"), 11/10)] []).rate :=
  C6_rate_positive_for_positive_tables (fun _ => RemoteOutcome.httpFail)
    "EUR" "USD" [(("EUR", "USD"), 11/10)] []
    (by decide) (by simp) (fun _ _ h => nomatch h)

/-- C7: when the upper-cased pair of non-empty currency codes is in the local
table, `get_rate` returns exactly the table value, leaves the cache
untouched, and performs no remote call; and any other casing of the same
pair (same upper-cased forms) yields the same result. -/
theorem C7_local_table_hit_no_remote_call (api : String → RemoteOutcome)
    (from_currency to_currency : String)
    (rates_dict : List ((String × String) × ℚ)) (api_cache : Cache) (r : ℚ)
    (hf : from_currency ≠ "") (ht : to_currency ≠ "")
    (h : alookup (upperStr from_currency, upperStr to_currency) rates_dict
          = some r) :
    get_rate api from_currency to_currency rates_dict api_cache
      = { rate := r, cache := api_cache, calls := [] }
    ∧ ∀ g u : String, g ≠ "" → u ≠ "" →
        upperStr g = upperStr from_currency →
        upperStr u = upperStr to_currency →
        get_rate api g u rates_dict api_cache
          = { rate := r, cache := api_cache, calls := [] } := by
  have main : ∀ g u : String, g ≠ "" → u ≠ "" →
      upperStr g = upperStr from_currency →
      upperStr u = upperStr to_currency →
      get_rate api g u rates_dict api_cache
        = { rate := r, cache := api_cache, calls := [] } := by
    intro g u hg hu hgu huu
    simp only [get_rate, hgu, huu, h]
    rw [if_neg]
    rintro (rfl | rfl)
    · exact hg rfl
    · exact hu rfl
  exact ⟨main from_currency to_currency hf ht rfl rfl, main⟩

/-- Concrete instantiation of C7: mixed-case `eur`/`Usd` hit the upper-cased
`(EUR, USD)` table entry; no remote call, cache unchanged. -/
theorem C7_witness :
    get_rate (fun _ => RemoteOutcome.exn) "eur" "Usd"
        [(("EUR", "USD"), 11/10)] []
      = { rate := 11/10, cache := [], calls := [] } :=
  (C7_local_table_hit_no_remote_call (fun _ => RemoteOutcome.exn)
    "eur" "Usd" [(("EUR", "USD"), 11/10)] [] (11/10)
    (by decide) (by decide) (by decide)).1

/-- C10: a caller passing an empty `api_cache` dictionary gets it back
unchanged — `api_cache = api_cache or {}` rebinds a falsy cache to a fresh
dictionary, so any remote result is stored only there — and a subsequent
call passing the same still-empty dictionary behaves exactly like the
first. -/
theorem C10_empty_cache_unchanged (api : String → RemoteOutcome)
    (from_currency to_currency : String)
    (rates_dict : List ((String × String) × ℚ)) :
    (get_rate api from_currency to_currency rates_dict []).cache = []
    ∧ get_rate api from_currency to_currency rates_dict
        ((get_rate api from_currency to_currency rates_dict []).cache)
      = get_rate api from_currency to_currency rates_dict [] := by
  have h : (get_rate api from_currency to_currency rates_dict []).cache = [] := by
    simp only [get_rate]
    repeat' split
    all_goals first | rfl | simp_all
  exact ⟨h, by rw [h]⟩

/-- `_convert_row` reads only the raw amount and currency of a row, never the
`converted_non_vat_value` column it writes. -/
theorem convert_row_ignores_converted (api : String → RemoteOutcome)
    (base_currency : String) (rates_dict : List ((String × String) × ℚ))
    (row : LineItem) (api_cache : Cache) (x : Option ℚ) :
    convert_row api base_currency rates_dict
        { row with converted_non_vat_value := x } api_cache
      = convert_row api base_currency rates_dict row api_cache := by
  cases row
  rfl

/-- Overwriting the converted column twice keeps only the last value. -/
theorem lineItem_converted_overwrite (row : LineItem) (x y : Option ℚ) :
    ({ { row with converted_non_vat_value := x } with
        converted_non_vat_value := y } : LineItem)
      = { row with converted_non_vat_value := y } := by
  cases row
  rfl

/-- Re-running the conversion loop on its own output (same rate table, same
remote behaviour, fresh cache state) reproduces the output exactly. -/
theorem apply_fx_rates_rows_idempotent (api : String → RemoteOutcome)
    (base_currency : String) (rates_dict : List ((String × String) × ℚ)) :
    ∀ (rows : List LineItem) (api_cache : Cache),
      apply_fx_rates_rows api base_currency rates_dict
          (apply_fx_rates_rows api base_currency rates_dict rows api_cache).1
          api_cache
        = apply_fx_rates_rows api base_currency rates_dict rows api_cache := by
  intro rows
  induction rows with
  | nil => intro api_cache; rfl
  | cons row rest ih =>
    intro api_cache
    simp only [apply_fx_rates_rows]
    rw [convert_row_ignores_converted, lineItem_converted_overwrite, ih]

/-- C8: the Conversion Stage is idempotent — applying `apply_fx_rates` to its
own output (same rate table, same remote behaviour) yields the identical row
table — and in the pass-through cases (missing currency, or currency equal to
the base currency up to case) the converted value is the raw amount,
unchanged, with no remote call. -/
theorem C8_conversion_idempotent (api : String → RemoteOutcome)
    (base_currency : String) (rates_dict : List ((String × String) × ℚ))
    (rows : List LineItem) :
    (apply_fx_rates api base_currency rates_dict
        (apply_fx_rates api base_currency rates_dict rows).1).1
      = (apply_fx_rates api base_currency rates_dict rows).1
    ∧ (∀ (row : LineItem) (a : ℚ) (api_cache : Cache),
        row.total_non_vat_value = some a →
        (row.currency = none ∨ row.currency = some "" ∨
          ∃ c, row.currency = some c ∧ upperStr c = upperStr base_currency) →
        (convert_row api base_currency rates_dict row api_cache).1 = some a
        ∧ (convert_row api base_currency rates_dict row api_cache).2.2 = []) := by
  constructor
  · exact congrArg Prod.fst
      (apply_fx_rates_rows_idempotent api base_currency rates_dict rows [])
  · intro row a api_cache htot hcur
    rcases hcur with h | h | ⟨c, hc, hcu⟩
    · simp [convert_row, htot, h]
    · simp [convert_row, htot, h]
    · by_cases hc0 : c = "" <;> simp [convert_row, htot, hc, hc0, hcu]

/-- Concrete instantiation of C8: a row already in the base currency (up to
case) passes through unchanged with no remote call. -/
theorem C8_witness :
    (convert_row (fun _ => RemoteOutcome.exn) "USD" []
        { item_description := some "A", total_non_vat_value := some 900,
          currency := some "usd" } []).1 = some 900
    ∧ (convert_row (fun _ => RemoteOutcome.exn) "USD" []
        { item_description := some "A", total_non_vat_value := some 900,
          currency := some "usd" } []).2.2 = [] :=
  (C8_conversion_idempotent (fun _ => RemoteOutcome.exn) "USD" [] []).2
    { item_description := some "A", total_non_vat_value := some 900,
      currency := some "usd" }
    900 [] (by decide) (Or.inr (Or.inr ⟨"usd", rfl, by decide⟩))

/-- C9: the pipeline returns the pair of two empty tables exactly when the
invoice-source folder is missing or extraction yields zero line items; in
every other case — in particular whatever the state of the supporting-docs
folder, including `none` (missing) — it completes and returns the populated
pair (converted invoice table, verification table). -/
theorem C9_abort_iff_no_folder_or_no_items (invoicesFolderExists : Bool)
    (perFile : List (String × GeminiOutcome))
    (docsFolder : Option (List String))
    (extractSupport : String → Option ℚ) (tolerance : ℚ)
    (api : String → RemoteOutcome) (base_currency : String)
    (rates_dict : List ((String × String) × ℚ)) :
    (run_validation invoicesFolderExists perFile docsFolder extractSupport
        tolerance api base_currency rates_dict = ([], [])
      ↔ invoicesFolderExists = false ∨ process_invoices perFile = [])
    ∧ (invoicesFolderExists = true → process_invoices perFile ≠ [] →
        run_validation invoicesFolderExists perFile docsFolder extractSupport
            tolerance api base_currency rates_dict
          = ((apply_fx_rates api base_currency rates_dict
                (process_invoices perFile)).1,
             match_and_verify tolerance docsFolder extractSupport
               (process_invoices perFile))) := by
  cases invoicesFolderExists
  · simp [run_validation]
  · by_cases hp : process_invoices perFile = []
    · simp [run_validation, hp]
    · have hver : match_and_verify tolerance docsFolder extractSupport
          (process_invoices perFile) ≠ [] := by
        simp [match_and_verify, hp]
      constructor
      · simp only [run_validation, Bool.not_true, Bool.false_eq_true,
          if_false, List.isEmpty_eq_true, hp, if_neg hp]
        constructor
        · intro hEq
          exact absurd (congrArg Prod.snd hEq) hver
        · rintro (h | h)
          · cases h
          · exact h.elim
      · intro _ _
        simp only [run_validation, Bool.not_true, Bool.false_eq_true,
          if_false, List.isEmpty_eq_true, hp, if_neg hp]

/-- Concrete instantiation of C9: one invoice yielding one line item, with a
missing supporting-docs folder — the pipeline does not abort and returns the
populated pair. -/
theorem C9_witness :
    run_validation true
        [("inv1.pdf", GeminiOutcome.parsed (ParsedJson.listOf
          [{ item_description := some "Laptop", total_non_vat_value := some 900,
             currency := some "USD" }]))]
        none (fun _ => none) (1/100) (fun _ => RemoteOutcome.exn) "USD" []
      = ((apply_fx_rates (fun _ => RemoteOutcome.exn) "USD" []
            (process_invoices
              [("inv1.pdf", GeminiOutcome.parsed (ParsedJson.listOf
                [{ item_description := some "Laptop",
                   total_non_vat_value := some 900,
                   currency := some "USD" }]))])).1,
         match_and_verify (1/100) none (fun _ => none)
           (process_invoices
             [("inv1.pdf", GeminiOutcome.parsed (ParsedJson.listOf
               [{ item_description := some "Laptop",
                  total_non_vat_value := some 900,
                  currency := some "USD" }]))])) :=
  (C9_abort_iff_no_folder_or_no_items true
      [("inv1.pdf", GeminiOutcome.parsed (ParsedJson.listOf
        [{ item_description := some "Laptop", total_non_vat_value := some 900,
           currency := some "USD" }]))]
      none (fun _ => none) (1/100) (fun _ => RemoteOutcome.exn) "USD" []).2
    rfl (by decide)
